import Mathlib

/-!
Shallow embedding of the qinter explanation engine
(src/qinter/explanations/{engine,pattern_matcher,context_analyzer,template_renderer}.py
and the rule-catalog data model of src/qinter/packages/loader.py), together with
theorems settling the frozen claims about it.

Conventions of the embedding:
  * Python strings are Lean `String`s; string algorithms are implemented over
    `List Char` (a Lean `String`'s character data) so that they can be reasoned
    about symbolically.  Python `str.strip` / `str.lower` are modelled on the
    ASCII/whitespace fragment by `pyStrip` / `pyLower`.
  * Python `float` values are modelled as exact rationals (`Rat`).  The claims
    under study compare scores and thresholds whose denominators are tiny, where
    rational and binary-float comparison agree.
  * Python `None` / heterogeneous dict values are modelled by the `PyValue`
    inductive; a Python dict of facts is an association list (`FactSet`), with
    the dict-key-uniqueness convention noted where it matters.
  * A raised Python exception is modelled by `Except.error`; stdlib calls that
    the repository code wraps in try/except enter the embedding as
    `Except`-valued or `Option`-valued parameters where their internal behavior
    is outside the repository (re, difflib).
-/

namespace Qinter

/-- Left brace character, written via its code point (code 123). -/
def lbrace : Char := Char.ofNat 123

/-- Right brace character, written via its code point (code 125). -/
def rbrace : Char := Char.ofNat 125

/-- A Python runtime value as it occurs in the fact dictionaries handled by the
template renderer: bool, int, float (modelled as an exact rational), str, list,
or None. -/
inductive PyValue where
  | bool (b : Bool)
  | int (n : Int)
  | float (q : Rat)
  | str (s : String)
  | list (xs : List PyValue)
  | none
deriving Repr

/-- A fact dictionary (Python `Dict[str, Any]`): an association list from fact
names to values.  Lookup takes the first binding, matching dict semantics under
the key-uniqueness convention of Python dicts. -/
def FactSet : Type := List (String × PyValue)

/-- Dict lookup (`analysis.get(name)` / `name in analysis`). -/
def FactSet.get? (fs : FactSet) (k : String) : Option PyValue :=
  match fs with
  | [] => Option.none
  | (k', v) :: rest => if k' = k then some v else FactSet.get? rest k

/-- Models Python `str.strip()` on character data: drop leading and trailing
whitespace. -/
def pyStrip (cs : List Char) : List Char :=
  ((cs.dropWhile Char.isWhitespace).reverse.dropWhile Char.isWhitespace).reverse

/-- Models Python `str.strip()` at the `String` level. -/
def pyStripStr (s : String) : String :=
  String.mk (pyStrip s.data)

/-- Models Python `str.lower()` on the ASCII fragment (the fixed module and
builtin tables the analyzer compares against are ASCII). -/
def pyLower (s : String) : String :=
  String.mk (s.data.map Char.toLower)

/-- Splits `s` at the first occurrence of the (nonempty) pattern `pat`,
returning the part before it and the part after it.  `Option.none` when `pat`
does not occur.  This is Python's `s.split(pat, 1)` when it succeeds, and the
occurrence test `pat in s` is `(splitFirst pat s).isSome`. -/
def splitFirst (pat : List Char) : List Char → Option (List Char × List Char)
  | [] => Option.none
  | c :: cs =>
    if pat.isPrefixOf (c :: cs) then some ([], (c :: cs).drop pat.length)
    else
      match splitFirst pat cs with
      | some (a, b) => some (c :: a, b)
      | Option.none => Option.none

/-- `splitFirst` at the `String` level. -/
def splitFirstStr (pat s : String) : Option (String × String) :=
  match splitFirst pat.data s.data with
  | some (a, b) => some (String.mk a, String.mk b)
  | Option.none => Option.none

/-- Digit run to a natural number. -/
def digitsToNat (cs : List Char) : Nat :=
  cs.foldl (fun a c => a * 10 + (c.toNat - 48)) 0

/-- Models Python `float(s)` on decimal string literals: optional surrounding
whitespace, an optional sign, then digits with an optional fractional part
(at least one digit overall).  `Option.none` models the `ValueError` raised on
anything else; scientific notation, infinities and nan are outside the
modelled fragment. -/
def parseFloat (s : String) : Option Rat :=
  let cs := pyStrip s.data
  let signNeg : Bool := cs.head? = some '-'
  let cs := if cs.head? = some '-' ∨ cs.head? = some '+' then cs.drop 1 else cs
  let intPart := cs.takeWhile Char.isDigit
  let rest := cs.drop intPart.length
  let mk : Rat → Option Rat := fun q => some (if signNeg then -q else q)
  match rest with
  | [] => if intPart.isEmpty then Option.none else mk (digitsToNat intPart)
  | '.' :: frac =>
    if frac.all Char.isDigit && !(intPart.isEmpty && frac.isEmpty) then
      mk ((digitsToNat intPart : Rat) + (digitsToNat frac : Rat) / (10 : Rat) ^ frac.length)
    else Option.none
  | _ => Option.none

/-- Models Python `int(s)` on decimal string literals (used for the `.Nf`
format-spec digit count); `Option.none` models `ValueError`. -/
def parsePyInt (s : String) : Option Int :=
  let cs := pyStrip s.data
  let signNeg : Bool := cs.head? = some '-'
  let cs := if cs.head? = some '-' ∨ cs.head? = some '+' then cs.drop 1 else cs
  if cs.isEmpty || !(cs.all Char.isDigit) then Option.none
  else some (if signNeg then -(digitsToNat cs : Int) else (digitsToNat cs : Int))

/-- Models Python `float(value)` applied to a `PyValue` (the conversion used by
the renderer's condition evaluator and format specs).  `Option.none` models the
`ValueError`/`TypeError` raised for non-convertible values. -/
def pyFloat : PyValue → Option Rat
  | .bool b => some (if b then 1 else 0)
  | .int n => some (n : Rat)
  | .float q => some q
  | .str s => parseFloat s
  | .list _ => Option.none
  | .none => Option.none

/-- Models Python `str(value)`.  The textual form of floats and lists is a
simplified rendering (exact binary-float repr is outside the embedded
fragment); the claims under study only depend on the `str` and `bool` cases. -/
def pyStr : PyValue → String
  | .str s => s
  | .bool b => if b then "True" else "False"
  | .int n => toString n
  | .float q => toString q
  | .list _ => "[...]"
  | .none => "None"

/-! ## Rule catalog data model (qinter/packages/loader.py dataclasses) -/

/-- A context condition of a rule (loader.py `ContextCondition`).  Optional
fields default to `Option.none` (Python `None`).  The Python field `variable`
is a Lean keyword and is embedded as `var`. -/
structure ContextCondition where
  type : String
  threshold : Option Rat := Option.none
  min_matches : Option Int := Option.none
  modules : Option (List String) := Option.none
  functions : Option (List String) := Option.none
  extensions : Option (List String) := Option.none
  inside_function : Option Bool := Option.none
  var : Option String := Option.none
  expected_type : Option String := Option.none
  script : Option String := Option.none
deriving Repr, DecidableEq

/-- Trigger conditions of a rule (loader.py `ExplanationConditions`).  The
loader always materializes `context_conditions` as a list (possibly empty). -/
structure ExplanationConditions where
  exception_type : String
  message_patterns : List String
  context_conditions : List ContextCondition := []
deriving Repr, DecidableEq

/-- A suggestion of a rule (loader.py `ExplanationSuggestion`). -/
structure ExplanationSuggestion where
  template : String
  priority : Int
  condition : String := "always"
deriving Repr, DecidableEq

/-- A code example of a rule (loader.py `ExplanationExample`). -/
structure ExplanationExample where
  id : String
  description : String
  code : String
  condition : String := "always"
deriving Repr, DecidableEq

/-- The renderable content of a rule (loader.py `ExplanationContent`). -/
structure ExplanationContent where
  title : String
  description : String
  suggestions : List ExplanationSuggestion
  examples : List ExplanationExample
deriving Repr, DecidableEq

/-- A complete explanation rule (loader.py `Explanation`). -/
structure Explanation where
  id : String
  priority : Int
  conditions : ExplanationConditions
  explanation : ExplanationContent
deriving Repr, DecidableEq

/-- Pack metadata (loader.py `PackMetadata`). -/
structure PackMetadata where
  name : String
  version : String
  description : String
  author : String
  license : String
  qinter_version : String
  targets : List String
  tags : List String := []
  dependencies : List String := []
  homepage : Option String := Option.none
  repository : Option String := Option.none
deriving Repr, DecidableEq

/-- A loaded explanation pack (loader.py `ExplanationPack`); the filesystem
path is embedded as a plain string. -/
structure ExplanationPack where
  metadata : PackMetadata
  explanations : List Explanation
  file_path : Option String := Option.none
deriving Repr, DecidableEq

/-! ## Template renderer (qinter/explanations/template_renderer.py) -/

namespace TemplateRenderer

/-- The isinstance dispatch of `_evaluate_condition`'s direct-membership branch
(template_renderer.py lines 106-114): for a present fact, a bool is returned
as-is, a list or str is truthy iff non-empty, an int or float iff positive.
`Option.none` when the fact is absent or its value's type is not one of the
handled ones — both fall through to the comparison branch in the source. -/
def directTruthiness : Option PyValue → Option Bool
  | some (.bool b) => some b
  | some (.list xs) => some (decide (0 < xs.length))
  | some (.str s) => some (decide (0 < s.length))
  | some (.int n) => some (decide (0 < n))
  | some (.float q) => some (decide (0 < q))
  | some .none => Option.none
  | Option.none => Option.none

/-- The comparison branch of `_evaluate_condition` (template_renderer.py lines
116-124): when the condition contains " > ", split at its first occurrence,
parse the right side as a float, fetch the left fact (defaulting to int 0) and
compare numerically; any conversion failure yields false. -/
def evaluateComparison (condition : String) (analysis : FactSet) : Bool :=
  match splitFirstStr " > " condition with
  | some (left, right) =>
    let leftVal := (analysis.get? (pyStripStr left)).getD (.int 0)
    (match parseFloat (pyStripStr right), pyFloat leftVal with
     | some rightV, some leftV => decide (rightV < leftV)
     | _, _ => false)
  | Option.none => false

/-- `TemplateRenderer._evaluate_condition` (template_renderer.py lines
101-127): direct truthiness of a present fact, else the " > " comparison
form, else false. -/
def evaluateCondition (condition : String) (analysis : FactSet) : Bool :=
  match directTruthiness (analysis.get? condition) with
  | some b => b
  | Option.none => evaluateComparison condition analysis

/-- `TemplateRenderer._should_include_item` (template_renderer.py lines
208-213): the literal token "always" is special-cased to true; everything else
goes through `evaluateCondition`. -/
def shouldIncludeItem (condition : String) (analysis : FactSet) : Bool :=
  if condition = "always" then true
  else evaluateCondition condition analysis

/-- Fixed-point formatting of a rational with `d` decimals, modelling Python's
f-string `:.Nf` spec on the embedded rationals.  Rounding is floor(q*10^d+1/2);
the ties-to-even behavior of binary floats is outside the embedded fragment
(no claim depends on this function's digits). -/
def formatFixed (d : Nat) (q : Rat) : String :=
  let scaled : Int := ⌊q * (10 : Rat) ^ d + 1 / 2⌋
  let sign := if scaled < 0 then "-" else ""
  let a := scaled.natAbs
  let ip := a / 10 ^ d
  let fp := a % 10 ^ d
  if d = 0 then sign ++ toString ip
  else
    let fs := toString fp
    sign ++ toString ip ++ "." ++ String.mk (List.replicate (d - fs.length) '0') ++ fs

/-- Percent formatting, modelling the f-string `:.0%` spec. -/
def formatPercent0 (q : Rat) : String :=
  formatFixed 0 (q * 100) ++ "%"

/-- The replacement callback `replace_var` of `_substitute_variables`
(template_renderer.py lines 131-150), applied to the capture group of one
matched variable token: an optional `:format` suffix is split off at the first
colon; a missing fact yields the literal placeholder string
"\x7bunknown_variable_<name>\x7d"; the `.0%` and `.Nf` format specs convert the
value to float (falling back to `str(value)` when conversion raises), any other
spec stringifies the value. -/
def replaceVar (analysis : FactSet) (token : List Char) : String :=
  match splitFirst [':'] token with
  | some (nameCs, specCs) =>
    let varName := String.mk nameCs
    let formatSpec := String.mk specCs
    let value := (analysis.get? varName).getD
      (.str ("\x7bunknown_variable_" ++ varName ++ "\x7d"))
    if formatSpec = ".0%" then
      match pyFloat value with
      | some q => formatPercent0 q
      | Option.none => pyStr value
    else if formatSpec.startsWith "." && formatSpec.endsWith "f" then
      match parsePyInt (String.mk (specCs.drop 1).dropLast), pyFloat value with
      | some d, some q => if d < 0 then pyStr value else formatFixed d.toNat q
      | _, _ => pyStr value
    else pyStr value
  | Option.none =>
    let varName := String.mk token
    pyStr ((analysis.get? varName).getD
      (.str ("\x7bunknown_variable_" ++ varName ++ "\x7d")))

/-- Tries to match the variable-token regex `\x7b([^\x7d]+)\x7d` at the head of
`cs`: an opening brace, one or more non-closing-brace characters (the capture),
then a closing brace.  Returns the capture and the remainder after the match. -/
def scanToken : List Char → Option (List Char × List Char)
  | [] => Option.none
  | c :: rest =>
    if c = lbrace then
      let nameCs := rest.takeWhile (fun x => x ≠ rbrace)
      match rest.drop nameCs.length with
      | r :: rest2 =>
        if r = rbrace && !nameCs.isEmpty then some (nameCs, rest2) else Option.none
      | [] => Option.none
    else Option.none

/-- The left-to-right scan of `re.sub` over the variable-token regex: at each
position, a match is replaced (the replacement is not rescanned) and scanning
resumes after it; otherwise the character is kept.  The fuel argument bounds
the recursion; every step consumes at least one character, so fuel equal to the
length of the scanned text suffices. -/
def substituteVariablesAux (analysis : FactSet) : Nat → List Char → List Char
  | 0, cs => cs
  | _ + 1, [] => []
  | fuel + 1, c :: cs =>
    match scanToken (c :: cs) with
    | some (nameCs, rest) =>
      (replaceVar analysis nameCs).data ++ substituteVariablesAux analysis fuel rest
    | Option.none => c :: substituteVariablesAux analysis fuel cs

/-- `TemplateRenderer._substitute_variables` (template_renderer.py lines
129-153). -/
def substituteVariables (template : String) (analysis : FactSet) : String :=
  String.mk (substituteVariablesAux analysis template.data.length template.data)

/-- The literal "\x7bif" opening the block patterns. -/
def ifLit : List Char := [lbrace, 'i', 'f']

/-- The literal "\x7belse\x7d". -/
def elseLit : List Char := [lbrace, 'e', 'l', 's', 'e', rbrace]

/-- The literal "\x7bendif\x7d". -/
def endifLit : List Char := [lbrace, 'e', 'n', 'd', 'i', 'f', rbrace]

/-- Tries to match the regex fragment `\x7bif\s+([^\x7d]+)\x7d` at the head of
`cs`, returning the condition group (with the `.strip()` that the source
applies to it) and the remainder.  Writing `run` for the characters between
"\x7bif" and the first closing brace, the fragment matches exactly when a
closing brace exists, `run` starts with a whitespace character and has length
at least 2 (`\s+` needs one whitespace character and the capture needs one
more); greediness and backtracking inside `\s+([^\x7d]+)` only shift
whitespace between the two groups, so after stripping the capture is
`pyStrip run`. -/
def matchIfOpen (cs : List Char) : Option (String × List Char) :=
  if ifLit.isPrefixOf cs then
    let afterIf := cs.drop 3
    let run := afterIf.takeWhile (fun x => x ≠ rbrace)
    match afterIf.drop run.length with
    | r :: rest =>
      if r = rbrace && 2 ≤ run.length && (run.head?.map Char.isWhitespace).getD false then
        some (String.mk (pyStrip run), rest)
      else Option.none
    | [] => Option.none
  else Option.none

/-- Lazy-group matching of `(.*?)\x7belse\x7d(.*?)\x7bendif\x7d` with
backtracking: the if-branch content ends at the first "\x7belse\x7d" that is
followed (anywhere later) by an "\x7bendif\x7d", and the else-branch content
then ends at the first "\x7bendif\x7d" after it.  Fueled recursion: each round
consumes at least the else literal, so fuel equal to the text length
suffices. -/
def findElseEndif : Nat → List Char → Option (List Char × List Char × List Char)
  | 0, _ => Option.none
  | fuel + 1, s =>
    match splitFirst elseLit s with
    | Option.none => Option.none
    | some (a, t) =>
      match splitFirst endifLit t with
      | some (b, c) => some (a, b, c)
      | Option.none =>
        match findElseEndif fuel t with
        | some (a2, b, c) => some (a ++ elseLit ++ a2, b, c)
        | Option.none => Option.none

/-- Tries to match the if-else pattern
`\x7bif\s+([^\x7d]+)\x7d(.*?)\x7belse\x7d(.*?)\x7bendif\x7d` (with re.DOTALL)
at the head of `cs`. -/
def matchIfElseAt (cs : List Char) : Option (String × List Char × List Char × List Char) :=
  match matchIfOpen cs with
  | some (cond, rest) =>
    match findElseEndif (rest.length + 1) rest with
    | some (ifC, elseC, rest2) => some (cond, ifC, elseC, rest2)
    | Option.none => Option.none
  | Option.none => Option.none

/-- Tries to match the simple if pattern
`\x7bif\s+([^\x7d]+)\x7d(.*?)\x7bendif\x7d` (with re.DOTALL) at the head of
`cs`: the lazy group ends at the first "\x7bendif\x7d". -/
def matchIfAt (cs : List Char) : Option (String × List Char × List Char) :=
  match matchIfOpen cs with
  | some (cond, rest) =>
    match splitFirst endifLit rest with
    | some (b, c) => some (cond, b, c)
    | Option.none => Option.none
  | Option.none => Option.none

/-- The `re.sub` pass over the if-else pattern (the `replace_if_else` callback
of `_handle_conditional_blocks`, template_renderer.py lines 75-85): each match
is replaced by the branch chosen by evaluating its condition, and scanning
resumes after the match (replacements are not rescanned). -/
def subIfElse (analysis : FactSet) : Nat → List Char → List Char
  | 0, cs => cs
  | _ + 1, [] => []
  | fuel + 1, c :: cs =>
    match matchIfElseAt (c :: cs) with
    | some (cond, ifC, elseC, rest) =>
      (if evaluateCondition cond analysis then ifC else elseC) ++
        subIfElse analysis fuel rest
    | Option.none => c :: subIfElse analysis fuel cs

/-- The `re.sub` pass over the simple if pattern (the `replace_if` callback of
`_handle_conditional_blocks`, template_renderer.py lines 88-97): a match whose
condition holds is replaced by its content, otherwise by the empty string. -/
def subIf (analysis : FactSet) : Nat → List Char → List Char
  | 0, cs => cs
  | _ + 1, [] => []
  | fuel + 1, c :: cs =>
    match matchIfAt (c :: cs) with
    | some (cond, content, rest) =>
      (if evaluateCondition cond analysis then content else []) ++
        subIf analysis fuel rest
    | Option.none => c :: subIf analysis fuel cs

/-- `TemplateRenderer._handle_conditional_blocks` (template_renderer.py lines
66-99): first the if-else pass, then the simple-if pass. -/
def handleConditionalBlocks (template : String) (analysis : FactSet) : String :=
  let s1 := subIfElse analysis template.data.length template.data
  String.mk (subIf analysis s1.length s1)

/-- `TemplateRenderer._render_template` (template_renderer.py lines 44-64):
empty template renders empty; otherwise conditional blocks, then variable
substitution, then a strip of surrounding whitespace. -/
def renderTemplate (template : String) (analysis : FactSet) : String :=
  if template = "" then ""
  else pyStripStr (substituteVariables (handleConditionalBlocks template analysis) analysis)

end TemplateRenderer

/-! ## Context analyzer (qinter/explanations/context_analyzer.py) -/

/-- The analysis dictionary built by `ContextAnalyzer.analyze`
(context_analyzer.py lines 47-78), with the value type each key carries in the
source. -/
structure Analysis where
  variable_name : String
  exception_type : String
  exception_message : String
  filename : String
  line_number : Int
  function_name : String
  available_variables : List String
  imported_modules : List String
  similar_variables : List String
  closest_variable : Option String
  similarity_score : Rat
  looks_like_import : Bool
  builtin_typo_detected : Bool
  correct_builtin : Option String
  similar_variables_exist : Bool
  object_type : String
  operation : String
  type1 : Option String
  type2 : Option String
  expected : Option Int
  actual : Option Int
  bad_value : String
deriving Repr, DecidableEq

/-- One traceback frame of the captured context as the analyzer reads it
(`traceback_info[-1].get('function_name', 'module')`). -/
structure Frame where
  function_name : Option String
deriving Repr, DecidableEq

/-- The captured context dictionary, restricted to the keys
`ContextAnalyzer.analyze` reads: `traceback_info`, `file_context.filename`,
`file_context.error_line` and `local_variables`.  `Option.none` models an
absent key (the source reads each with a `.get` default). -/
structure CapturedContext where
  traceback_info : List Frame
  filename : Option String
  error_line : Option Int
  local_variables : List (String × PyValue)
deriving Repr

/-- The stdlib difflib calls of `_analyze_variable_similarity`, entering the
embedding as parameters: `getCloseMatches` models
`difflib.get_close_matches(word, possibilities, n=5, cutoff=0.4)` and
`ratioValue` models `difflib.SequenceMatcher(None, a, b).ratio()`.  The claims
under study hold for every choice of these functions. -/
structure DifflibModel where
  getCloseMatches : String → List String → List String
  ratioValue : String → String → Rat

/-- The regex-extraction helpers of the analyzer (`_extract_variable_name`,
`_extract_object_type`, `_extract_operation`, `_extract_bad_value` and the
message parsers of `_analyze_type_errors` / `_analyze_value_errors`).  Each
wraps `re.search` over a fixed stdlib regex on the exception message; they
enter the embedding as parameters because no claim under study depends on the
extracted text, only on where it flows. -/
structure ExtractionModel where
  extract_variable_name : String → String
  extract_object_type : String → String
  extract_operation : String → String
  extract_bad_value : String → String
  type_error_operands : String → Option (String × String × String)
  unpack_expected_actual : String → Option (Int × Int)
  unpack_expected : String → Option Int

namespace ContextAnalyzer

/-- The fixed module-name set `common_modules` (context_analyzer.py lines
19-23). -/
def common_modules : List String :=
  ["requests", "pandas", "numpy", "matplotlib", "json", "os", "sys",
   "datetime", "math", "random", "time", "urllib", "sqlite3", "csv",
   "pickle", "itertools", "collections", "functools", "operator"]

/-- The fixed typo-to-builtin table `builtin_typos` (context_analyzer.py lines
26-34). -/
def builtin_typos : List (String × String) :=
  [("lenght", "len"), ("lentgh", "len"), ("legth", "len"),
   ("pirnt", "print"), ("prnit", "print"), ("prin", "print"),
   ("strig", "str"), ("strign", "str"),
   ("itn", "int"), ("itne", "int"),
   ("flaot", "float"), ("flot", "float"),
   ("lsit", "list"), ("listst", "list"),
   ("dcit", "dict"), ("dictionairy", "dict")]

/-- `ContextAnalyzer._get_available_variables` (context_analyzer.py lines
178-188): the local-variable names, keeping only those that do not start with
an underscore and have more than one character (the `isinstance(name, str)`
test always holds here since dict keys of the snapshot are strings), sorted
ascending.  Python's `sorted` is a stable ascending sort, embedded as
insertion sort over the string order. -/
def getAvailableVariables (local_variables : List (String × PyValue)) : List String :=
  List.insertionSort (fun a b => a ≤ b)
    ((local_variables.map Prod.fst).filter
      (fun name => !(name.startsWith "_") && decide (1 < name.length)))

/-- `ContextAnalyzer._analyze_variable_similarity` (context_analyzer.py lines
195-220): when the extracted identifier and the available set are both
non-empty, record the close matches; when that list is non-empty also record
its first element as closest, set the existence flag and compute the
similarity ratio against the first match. -/
def analyzeVariableSimilarity (dm : DifflibModel) (analysis : Analysis) : Analysis :=
  if analysis.variable_name = "" ∨ analysis.available_variables = [] then analysis
  else
    let similar := dm.getCloseMatches analysis.variable_name analysis.available_variables
    let a := { analysis with similar_variables := similar }
    match similar with
    | [] => a
    | c :: _ =>
      { a with
        closest_variable := some c
        similar_variables_exist := true
        similarity_score := dm.ratioValue analysis.variable_name c }

/-- `ContextAnalyzer._analyze_import_patterns` (context_analyzer.py lines
222-227). -/
def analyzeImportPatterns (analysis : Analysis) : Analysis :=
  if common_modules.contains (pyLower analysis.variable_name) then
    { analysis with looks_like_import := true }
  else analysis

/-- `ContextAnalyzer._analyze_builtin_typos` (context_analyzer.py lines
229-235). -/
def analyzeBuiltinTypos (analysis : Analysis) : Analysis :=
  match builtin_typos.lookup (pyLower analysis.variable_name) with
  | some correct =>
    { analysis with builtin_typo_detected := true, correct_builtin := some correct }
  | Option.none => analysis

/-- `ContextAnalyzer._analyze_type_errors` (context_analyzer.py lines
237-250); `is_type_error` models `isinstance(exception, TypeError)`. -/
def analyzeTypeErrors (em : ExtractionModel) (is_type_error : Bool)
    (message : String) (analysis : Analysis) : Analysis :=
  if !is_type_error then analysis
  else
    match em.type_error_operands message with
    | some (op, t1, t2) =>
      { analysis with operation := pyStripStr op, type1 := some t1, type2 := some t2 }
    | Option.none => analysis

/-- `ContextAnalyzer._analyze_value_errors` (context_analyzer.py lines
252-267); `is_value_error` models `isinstance(exception, ValueError)`. -/
def analyzeValueErrors (em : ExtractionModel) (is_value_error : Bool)
    (message : String) (analysis : Analysis) : Analysis :=
  if !is_value_error then analysis
  else
    let a1 :=
      match em.unpack_expected_actual message with
      | some (e, ac) => { analysis with expected := some e, actual := some ac }
      | Option.none => analysis
    match em.unpack_expected message with
    | some e => { a1 with expected := some e }
    | Option.none => a1

/-- The initial fact dictionary built at the top of `ContextAnalyzer.analyze`
(context_analyzer.py lines 47-78), before the specific analyses run: basic
extraction, defaults for the similarity and pattern fields. -/
def initAnalysis (em : ExtractionModel)
    (exception_type_name exception_message : String) (ctx : CapturedContext) :
    Analysis :=
  { variable_name := em.extract_variable_name exception_message
    exception_type := exception_type_name
    exception_message := exception_message
    filename := ctx.filename.getD "interactive"
    line_number := ctx.error_line.getD 0
    function_name :=
      match ctx.traceback_info.getLast? with
      | some f => f.function_name.getD "module"
      | Option.none => "module"
    available_variables := getAvailableVariables ctx.local_variables
    imported_modules := []
    similar_variables := []
    closest_variable := Option.none
    similarity_score := 0
    looks_like_import := false
    builtin_typo_detected := false
    correct_builtin := Option.none
    similar_variables_exist := false
    object_type := em.extract_object_type exception_message
    operation := em.extract_operation exception_message
    type1 := Option.none
    type2 := Option.none
    expected := Option.none
    actual := Option.none
    bad_value := em.extract_bad_value exception_message }

/-- `ContextAnalyzer.analyze` (context_analyzer.py lines 36-87): build the
fact dictionary with its defaults and extraction results, then apply the five
specific analyses in source order. -/
def analyze (em : ExtractionModel) (dm : DifflibModel)
    (exception_type_name exception_message : String)
    (is_type_error is_value_error : Bool) (ctx : CapturedContext) : Analysis :=
  analyzeValueErrors em is_value_error exception_message
    (analyzeTypeErrors em is_type_error exception_message
      (analyzeBuiltinTypos
        (analyzeImportPatterns
          (analyzeVariableSimilarity dm
            (initAnalysis em exception_type_name exception_message ctx)))))

/-- Python `x or default` on an optional float: the default is used when the
value is None or 0.0 (Python falsiness). -/
def orDefaultRat (x : Option Rat) (d : Rat) : Rat :=
  match x with
  | some v => if v = 0 then d else v
  | Option.none => d

/-- Python `x or default` on an optional int. -/
def orDefaultInt (x : Option Int) (d : Int) : Int :=
  match x with
  | some v => if v = 0 then d else v
  | Option.none => d

/-- Python truthiness of an optional list (`if not condition.modules`). -/
def optListFalsy (x : Option (List String)) : Bool :=
  match x with
  | some l => l.isEmpty
  | Option.none => true

/-- `ContextAnalyzer.check_condition` (context_analyzer.py lines 89-129):
dispatch on the condition kind; unknown kinds are satisfied. -/
def checkCondition (condition : ContextCondition) (analysis : Analysis) : Bool :=
  if condition.type = "variable_similarity" then
    let threshold := orDefaultRat condition.threshold (6 / 10)
    let min_matches := orDefaultInt condition.min_matches 1
    decide (threshold ≤ analysis.similarity_score) &&
      decide (min_matches ≤ (analysis.similar_variables.length : Int))
  else if condition.type = "import_pattern" then
    if optListFalsy condition.modules then analysis.looks_like_import
    else
      analysis.looks_like_import &&
        (condition.modules.getD []).contains analysis.variable_name
  else if condition.type = "builtin_typo" then
    if optListFalsy condition.functions then analysis.builtin_typo_detected
    else
      analysis.builtin_typo_detected &&
        (match analysis.correct_builtin with
         | some b => (condition.functions.getD []).contains b
         | Option.none => false)
  else if condition.type = "file_extension" then
    match condition.extensions with
    | some exts =>
      if exts.isEmpty then true
      else exts.any (fun ext => analysis.filename.endsWith ext)
    | Option.none => true
  else if condition.type = "function_context" then
    match condition.inside_function with
    | some b => decide ((analysis.function_name ≠ "module") = b)
    | Option.none => false
  else true

end ContextAnalyzer

/-! ## Pattern matcher (qinter/explanations/pattern_matcher.py) -/

namespace PatternMatcher

/-- `PatternMatcher._matches_message_patterns` (pattern_matcher.py lines
129-138): try each pattern in order; a successful `re.search` returns true, a
failed search or an uncompilable pattern (`re.error`) moves on to the next
pattern; false when the list is exhausted.  The stdlib call
`re.search(pattern, message, re.IGNORECASE)` enters the embedding as the
parameter `search`: `some b` is a completed search with boolean outcome `b`,
`Option.none` models the `re.error` raised while compiling the pattern. -/
def matchesMessagePatterns (search : String → String → Option Bool)
    (patterns : List String) (message : String) : Bool :=
  match patterns with
  | [] => false
  | p :: rest =>
    match search p message with
    | some true => true
    | _ => matchesMessagePatterns search rest message

/-- A concrete instance of the `search` parameter for the metacharacter-free
fragment of regexes: a literal pattern matches under
`re.search(p, m, re.IGNORECASE)` exactly when its lowercasing occurs as a
substring of the message's lowercasing (`re.search` scans for a match anywhere,
not a full match; lowercasing models IGNORECASE on the ASCII fragment).
Literal patterns always compile, so the result is never `Option.none`. -/
def reSearchLiteral (pattern message : String) : Option Bool :=
  some (decide ((pyLower pattern).data <:+: (pyLower message).data))

/-- `PatternMatcher._matches_context_conditions` (pattern_matcher.py lines
140-149): every context condition must hold. -/
def matchesContextConditions (conditions : List ContextCondition)
    (analysis : Analysis) : Bool :=
  conditions.all (fun c => ContextAnalyzer.checkCondition c analysis)

/-- `PatternMatcher._matches_explanation` (pattern_matcher.py lines 93-127):
exception-type equality, then the message-pattern stage, then — only when the
context-condition list is non-empty (Python truthiness of
`conditions.context_conditions`) — the context-condition stage. -/
def matchesExplanation (search : String → String → Option Bool)
    (explanation : Explanation) (exception_type exception_message : String)
    (analysis : Analysis) : Bool :=
  if explanation.conditions.exception_type ≠ exception_type then false
  else if !matchesMessagePatterns search explanation.conditions.message_patterns
      exception_message then false
  else if !explanation.conditions.context_conditions.isEmpty then
    matchesContextConditions explanation.conditions.context_conditions analysis
  else true

/-- `PatternMatcher.load_explanations` (pattern_matcher.py lines 21-35),
flattening step: all rules of all packs in pack order, each tagged with its
source pack. -/
def flattenPacks (packs : List ExplanationPack) : List (Explanation × ExplanationPack) :=
  (packs.map (fun pack => pack.explanations.map (fun e => (e, pack)))).flatten

/-- The descending-priority order used by
`loaded_explanations.sort(key=lambda x: x[0].priority, reverse=True)`. -/
def priorityGE (x y : Explanation × ExplanationPack) : Prop :=
  y.1.priority ≤ x.1.priority

instance : DecidableRel priorityGE := fun x y =>
  inferInstanceAs (Decidable (y.1.priority ≤ x.1.priority))

instance : IsTotal (Explanation × ExplanationPack) priorityGE :=
  ⟨fun x y => le_total y.1.priority x.1.priority⟩

instance : IsTrans (Explanation × ExplanationPack) priorityGE :=
  ⟨fun _ _ _ h1 h2 => le_trans h2 h1⟩

/-- `PatternMatcher.load_explanations` (pattern_matcher.py lines 21-35):
flatten, then a stable sort descending by rule priority.  Python's
`list.sort` with `reverse=True` is a stable descending sort; a stable sort of
a list under a total preorder is unique, so it is embedded as insertion
sort under `priorityGE`. -/
def loadExplanations (packs : List ExplanationPack) : List (Explanation × ExplanationPack) :=
  List.insertionSort priorityGE (flattenPacks packs)

/-- The selection loop of `PatternMatcher.find_best_explanation`
(pattern_matcher.py lines 37-63): the first loaded rule that matches, if any.
The analysis argument is the result of the `context_analyzer.analyze` call the
source performs just before the loop. -/
def findBestExplanation (search : String → String → Option Bool)
    (loaded : List (Explanation × ExplanationPack))
    (exception_type exception_message : String) (analysis : Analysis) :
    Option (Explanation × ExplanationPack) :=
  match loaded with
  | [] => Option.none
  | (e, p) :: rest =>
    if matchesExplanation search e exception_type exception_message analysis then
      some (e, p)
    else findBestExplanation search rest exception_type exception_message analysis

/-- The accumulation loop of `PatternMatcher.find_all_matching_explanations`
(pattern_matcher.py lines 65-91): every loaded rule that matches, in loaded
order. -/
def findAllMatchingExplanations (search : String → String → Option Bool)
    (loaded : List (Explanation × ExplanationPack))
    (exception_type exception_message : String) (analysis : Analysis) :
    List (Explanation × ExplanationPack) :=
  match loaded with
  | [] => []
  | (e, p) :: rest =>
    if matchesExplanation search e exception_type exception_message analysis then
      (e, p) :: findAllMatchingExplanations search rest exception_type exception_message analysis
    else findAllMatchingExplanations search rest exception_type exception_message analysis

end PatternMatcher

/-! ## Suggestion and example rendering (template_renderer.py lines 155-206) -/

namespace TemplateRenderer

/-- The ascending order on the suggestion-text pairs used by
`suggestions_with_priority.sort(key=lambda x: x[0].priority)`. -/
def sugPriorityLE (x y : ExplanationSuggestion × String) : Prop :=
  x.1.priority ≤ y.1.priority

instance : DecidableRel sugPriorityLE := fun x y =>
  inferInstanceAs (Decidable (x.1.priority ≤ y.1.priority))

instance : IsTotal (ExplanationSuggestion × String) sugPriorityLE :=
  ⟨fun x y => le_total x.1.priority y.1.priority⟩

instance : IsTrans (ExplanationSuggestion × String) sugPriorityLE :=
  ⟨fun _ _ _ h1 h2 => le_trans h1 h2⟩

/-- The `suggestions_with_priority` list of `_render_suggestions`
(template_renderer.py lines 173-179): the condition-passing suggestions paired
with their rendered text, stably sorted ascending by the suggestion's own
priority (Python's stable `list.sort`, embedded as insertion sort). -/
def suggestionsWithPriority (suggestions : List ExplanationSuggestion)
    (analysis : FactSet) : List (ExplanationSuggestion × String) :=
  List.insertionSort sugPriorityLE
    ((suggestions.filter (fun s => shouldIncludeItem s.condition analysis)).map
      (fun s => (s, renderTemplate s.template analysis)))

/-- `TemplateRenderer._render_suggestions` (template_renderer.py lines
155-181): the rendered texts of the sorted pair list, keeping only non-empty
texts (Python truthiness of `text` in the final comprehension).  The first
loop of the source builds a list it never returns; the returned value is the
comprehension over `suggestions_with_priority`. -/
def renderSuggestions (suggestions : List ExplanationSuggestion)
    (analysis : FactSet) : List String :=
  ((suggestionsWithPriority suggestions analysis).map Prod.snd).filter
    (fun t => t ≠ "")

/-- One rendered example (the dict appended by `_render_examples`). -/
structure RenderedExample where
  description : String
  code : String
  id : String
deriving Repr, DecidableEq

/-- `TemplateRenderer._render_examples` (template_renderer.py lines 183-206):
condition-passing examples whose rendered description and code are both
non-empty, in catalog order. -/
def renderExamples (examples : List ExplanationExample)
    (analysis : FactSet) : List RenderedExample :=
  examples.filterMap (fun ex =>
    if shouldIncludeItem ex.condition analysis then
      let d := renderTemplate ex.description analysis
      let c := renderTemplate ex.code analysis
      if d ≠ "" ∧ c ≠ "" then some ⟨d, c, ex.id⟩ else Option.none
    else Option.none)

/-- A rendered explanation (the dict built by `render_explanation`,
template_renderer.py lines 16-42).  The metadata dict is embedded as the two
fields the renderer writes; the pack fields added later by the engine facade
are modelled at the facade boundary. -/
structure RenderedExplanation where
  title : String
  explanation : String
  suggestions : List String
  examples : List RenderedExample
  metadata_explanation_id : String
  metadata_priority : Int
deriving Repr, DecidableEq

/-- `TemplateRenderer.render_explanation` (template_renderer.py lines
16-42). -/
def renderExplanation (e : Explanation) (analysis : FactSet) : RenderedExplanation :=
  { title := renderTemplate e.explanation.title analysis
    explanation := renderTemplate e.explanation.description analysis
    suggestions := renderSuggestions e.explanation.suggestions analysis
    examples := renderExamples e.explanation.examples analysis
    metadata_explanation_id := e.id
    metadata_priority := e.priority }

end TemplateRenderer

/-! ## Engine facade (qinter/explanations/engine.py) -/

namespace ExplanationEngine

/-- Shallow embedding of the control flow of `ExplanationEngine.explain`
(engine.py lines 62-101).  Callee effects are represented in the `Except`
monad, `Except.error` modelling a raised Python exception: `initializeOp`
models the `self.initialize()` call — performed OUTSIDE the try block, and
only when the engine is not yet initialized; `findOp` models the
`matcher.find_best_explanation` call and `renderOp` the
`renderer.render_explanation` call together with the metadata update, both
INSIDE the try block whose handler returns None. -/
def explain {ε α β : Type} (initialized : Bool) (initializeOp : Except ε Unit)
    (findOp : Except ε (Option α)) (renderOp : α → Except ε β) :
    Except ε (Option β) :=
  match (if initialized then Except.ok () else initializeOp) with
  | Except.error e => Except.error e
  | Except.ok _ =>
    match
      (findOp.bind (fun matchResult =>
        match matchResult with
        | Option.none => Except.ok Option.none
        | some x => (renderOp x).map some)) with
    | Except.error _ => Except.ok Option.none
    | Except.ok v => Except.ok v

end ExplanationEngine

/-! ## Concrete sample values, used to evaluate the theorems below on explicit
inputs -/

/-- Sample trigger conditions: a NameError rule with one literal pattern and no
context conditions. -/
def sampleConditions : ExplanationConditions :=
  { exception_type := "NameError"
    message_patterns := ["is not defined"]
    context_conditions := [] }

/-- Sample suggestion. -/
def sampleSuggestion : ExplanationSuggestion :=
  { template := "Check the spelling", priority := 1, condition := "always" }

/-- Sample rule content. -/
def sampleContent : ExplanationContent :=
  { title := "Undefined variable"
    description := "A name was used before assignment"
    suggestions := [sampleSuggestion]
    examples := [] }

/-- Sample rule. -/
def sampleRule : Explanation :=
  { id := "name-error-basic", priority := 10
    conditions := sampleConditions, explanation := sampleContent }

/-- Sample pack metadata. -/
def sampleMetadata : PackMetadata :=
  { name := "core-python", version := "1.0.0", description := "Core pack"
    author := "qinter", license := "MIT", qinter_version := "1.0"
    targets := ["NameError"] }

/-- Sample pack holding the sample rule. -/
def samplePack : ExplanationPack :=
  { metadata := sampleMetadata, explanations := [sampleRule] }

/-- A sample analysis dictionary: the defaults `analyze` starts from, for an
exception with no extractable structure. -/
def sampleAnalysis : Analysis :=
  { variable_name := "unknown"
    exception_type := "NameError"
    exception_message := "name 'x' is not defined"
    filename := "interactive"
    line_number := 0
    function_name := "module"
    available_variables := []
    imported_modules := []
    similar_variables := []
    closest_variable := Option.none
    similarity_score := 0
    looks_like_import := false
    builtin_typo_detected := false
    correct_builtin := Option.none
    similar_variables_exist := false
    object_type := "unknown"
    operation := "operation"
    type1 := Option.none
    type2 := Option.none
    expected := Option.none
    actual := Option.none
    bad_value := "value" }

/-! ## Helper lemmas -/

section Helpers

/-- Filtering by an integer key value commutes with ordered insertion when the
inserted element can only pass elements with a different key: the stability
core of the sort lemmas. -/
theorem filter_orderedInsert_key {α : Type} (r : α → α → Prop) [DecidableRel r]
    (k : α → Int) (a : α) (h : ∀ b, ¬ r a b → k b ≠ k a) (c : Int) :
    ∀ l : List α, (l.orderedInsert r a).filter (fun x => decide (k x = c)) =
      if k a = c then a :: l.filter (fun x => decide (k x = c))
      else l.filter (fun x => decide (k x = c))
  | [] => by
    simp only [List.orderedInsert, List.filter]
    split <;> simp_all
  | b :: t => by
    simp only [List.orderedInsert]
    by_cases hr : r a b
    · simp only [if_pos hr, List.filter]
      split <;> split <;> simp_all
    · have hbk : k b ≠ k a := h b hr
      simp only [if_neg hr, List.filter_cons,
        filter_orderedInsert_key r k a h c t]
      by_cases hac : k a = c
      · have : ¬ (k b = c) := fun hbc => hbk (hbc.trans hac.symm)
        simp [hac, this]
      · simp only [if_neg hac]

/-- Filtering by an integer key value is invariant under the stable insertion
sort: equal-key elements keep their original relative order. -/
theorem filter_insertionSort_key {α : Type} (r : α → α → Prop) [DecidableRel r]
    (k : α → Int) (hk : ∀ a b, ¬ r a b → k b ≠ k a) (c : Int) (l : List α) :
    (l.insertionSort r).filter (fun x => decide (k x = c)) =
      l.filter (fun x => decide (k x = c)) := by
  induction l with
  | nil => rfl
  | cons a t ih =>
    simp only [List.insertionSort,
      filter_orderedInsert_key r k a (hk a) c, ih, List.filter_cons]
    split <;> simp_all

/-- The accumulation loop of `find_all_matching_explanations` is the filter of
the loaded list by the matching predicate. -/
theorem findAll_eq_filter (search : String → String → Option Bool)
    (ty msg : String) (a : Analysis) :
    ∀ loaded, PatternMatcher.findAllMatchingExplanations search loaded ty msg a =
      loaded.filter (fun r => PatternMatcher.matchesExplanation search r.1 ty msg a)
  | [] => rfl
  | (e, p) :: rest => by
    simp only [PatternMatcher.findAllMatchingExplanations, List.filter_cons]
    rw [findAll_eq_filter search ty msg a rest]

/-- The selection loop of `find_best_explanation` returns the head of the
accumulation loop's result. -/
theorem findBest_eq_head_findAll (search : String → String → Option Bool)
    (ty msg : String) (a : Analysis) :
    ∀ loaded, PatternMatcher.findBestExplanation search loaded ty msg a =
      (PatternMatcher.findAllMatchingExplanations search loaded ty msg a).head?
  | [] => rfl
  | (e, p) :: rest => by
    simp only [PatternMatcher.findBestExplanation,
      PatternMatcher.findAllMatchingExplanations]
    by_cases hm : PatternMatcher.matchesExplanation search e ty msg a
    · simp [hm]
    · simp [hm, findBest_eq_head_findAll search ty msg a rest]

/-- The matching predicate as the conjunction of its three stages. -/
theorem matchesExplanation_three_stages (search : String → String → Option Bool)
    (e : Explanation) (ty msg : String) (a : Analysis) :
    PatternMatcher.matchesExplanation search e ty msg a =
      (decide (e.conditions.exception_type = ty) &&
        PatternMatcher.matchesMessagePatterns search e.conditions.message_patterns msg &&
        PatternMatcher.matchesContextConditions e.conditions.context_conditions a) := by
  unfold PatternMatcher.matchesExplanation
  by_cases h1 : e.conditions.exception_type = ty
  · by_cases h2 : PatternMatcher.matchesMessagePatterns search e.conditions.message_patterns msg
    · cases hc : e.conditions.context_conditions with
      | nil => simp [h1, h2, hc, PatternMatcher.matchesContextConditions]
      | cons c cs => simp [h1, h2, hc]
    · simp [h1, h2]
  · simp [h1]

end Helpers

/-! ## Claim C3 -/

/-- C3: after loading any list of packs, the matcher's rule list is the
concatenation of all rules tagged with their source pack (a permutation of the
flattened list), sorted descending by rule priority, stably — rules of equal
priority keep their pack-then-in-pack original order (the filter at any fixed
priority is unchanged).  The matching predicate is the conjunction of its
three stages, find_all returns exactly the passing rules in loaded order
(the filter of the loaded list), find_best returns the first of them
(the head of that filter), and both are None/empty exactly when no rule
passes. -/
theorem c3_load_sort_and_selection (packs : List ExplanationPack)
    (search : String → String → Option Bool) (ty msg : String) (a : Analysis) :
    (PatternMatcher.loadExplanations packs).Perm (PatternMatcher.flattenPacks packs)
    ∧ (PatternMatcher.loadExplanations packs).Pairwise
        (fun x y => y.1.priority ≤ x.1.priority)
    ∧ (∀ p : Int,
        (PatternMatcher.loadExplanations packs).filter
            (fun r => decide (r.1.priority = p)) =
          (PatternMatcher.flattenPacks packs).filter
            (fun r => decide (r.1.priority = p)))
    ∧ (∀ e : Explanation,
        PatternMatcher.matchesExplanation search e ty msg a =
          (decide (e.conditions.exception_type = ty) &&
            PatternMatcher.matchesMessagePatterns search
              e.conditions.message_patterns msg &&
            PatternMatcher.matchesContextConditions
              e.conditions.context_conditions a))
    ∧ PatternMatcher.findAllMatchingExplanations search
          (PatternMatcher.loadExplanations packs) ty msg a =
        (PatternMatcher.loadExplanations packs).filter
          (fun r => PatternMatcher.matchesExplanation search r.1 ty msg a)
    ∧ PatternMatcher.findBestExplanation search
          (PatternMatcher.loadExplanations packs) ty msg a =
        (PatternMatcher.findAllMatchingExplanations search
          (PatternMatcher.loadExplanations packs) ty msg a).head?
    ∧ (PatternMatcher.findBestExplanation search
          (PatternMatcher.loadExplanations packs) ty msg a = Option.none ↔
        ∀ r ∈ PatternMatcher.loadExplanations packs,
          PatternMatcher.matchesExplanation search r.1 ty msg a = false) := by
  refine ⟨?_, ?_, ?_, ?_, ?_, ?_, ?_⟩
  · exact List.perm_insertionSort _ _
  · exact (List.sorted_insertionSort PatternMatcher.priorityGE
      (PatternMatcher.flattenPacks packs) :
        List.Sorted PatternMatcher.priorityGE _)
  · intro p
    exact filter_insertionSort_key PatternMatcher.priorityGE (fun r => r.1.priority)
      (fun x y h heq => h (le_of_eq heq)) p _
  · intro e
    exact matchesExplanation_three_stages search e ty msg a
  · exact findAll_eq_filter search ty msg a _
  · exact findBest_eq_head_findAll search ty msg a _
  · rw [findBest_eq_head_findAll search ty msg a, findAll_eq_filter search ty msg a]
    simp

/-! ## Claim C8 -/

/-- C8: whenever find_best returns a rule, that rule's declared exception type
is string-equal to the input exception type name. -/
theorem c8_find_best_type_exact (search : String → String → Option Bool)
    (loaded : List (Explanation × ExplanationPack)) (ty msg : String)
    (a : Analysis) (e : Explanation) (p : ExplanationPack)
    (h : PatternMatcher.findBestExplanation search loaded ty msg a = some (e, p)) :
    e.conditions.exception_type = ty := by
  induction loaded with
  | nil => simp [PatternMatcher.findBestExplanation] at h
  | cons hd tl ih =>
    obtain ⟨e', p'⟩ := hd
    by_cases hm : PatternMatcher.matchesExplanation search e' ty msg a = true
    · simp only [PatternMatcher.findBestExplanation, hm, if_true] at h
      injection h with h'
      injection h' with h1 h2
      subst h1
      rw [matchesExplanation_three_stages] at hm
      simp only [Bool.and_eq_true, decide_eq_true_eq] at hm
      exact hm.1.1
    · simp only [PatternMatcher.findBestExplanation, hm, if_false,
        Bool.false_eq_true] at h
      exact ih h

/-- Witness for C8: on a catalog holding the sample rule, find_best on a
NameError message returns that rule, whose declared exception type the theorem
then equates with "NameError". -/
theorem c8_find_best_type_exact_w : sampleRule.conditions.exception_type = "NameError" :=
  c8_find_best_type_exact PatternMatcher.reSearchLiteral [(sampleRule, samplePack)]
    "NameError" "name 'x' is not defined" sampleAnalysis sampleRule samplePack (by decide)

/-! ## Claim C7 -/

/-- C7: the message-pattern stage succeeds exactly when some pattern's search
succeeds — a pattern whose compilation fails (the `Option.none` outcome of the
search parameter, modelling `re.error`) is skipped and the remaining patterns
are still tried, and the embedding is a total function, so the stage never
raises.  On the literal fragment (the concrete `reSearchLiteral` instance),
matching a single pattern is exactly a case-insensitive substring search of
the pattern in the message, not a full match. -/
theorem c7_message_pattern_stage (search : String → String → Option Bool)
    (patterns : List String) (msg pat : String) :
    (PatternMatcher.matchesMessagePatterns search patterns msg = true ↔
      ∃ p ∈ patterns, search p msg = some true)
    ∧ (PatternMatcher.matchesMessagePatterns PatternMatcher.reSearchLiteral [pat] msg = true ↔
        (pyLower pat).data <:+: (pyLower msg).data) := by
  constructor
  · induction patterns with
    | nil => simp [PatternMatcher.matchesMessagePatterns]
    | cons p rest ih =>
      cases hs : search p msg with
      | none =>
        simp only [PatternMatcher.matchesMessagePatterns, hs]
        rw [ih]
        simp [hs]
      | some b =>
        cases b
        · simp only [PatternMatcher.matchesMessagePatterns, hs]
          rw [ih]
          simp [hs]
        · simp only [PatternMatcher.matchesMessagePatterns, hs]
          simp [hs]
  · simp only [PatternMatcher.matchesMessagePatterns, PatternMatcher.reSearchLiteral]
    cases hd : decide ((pyLower pat).data <:+: (pyLower msg).data) with
    | false => simp_all
    | true => simp_all

/-! ## Claim C1 -/

/-- C1 counterexample: the lazy initialization triggered by the first explain()
call sits outside the try block — an exception raised by it propagates to the
caller instead of degrading to the no-explanation result. -/
theorem c1_counterexample :
    ExplanationEngine.explain (ε := String) (α := Unit) (β := Unit) false
        (Except.error "initialization failure") (Except.ok Option.none)
        (fun _ => Except.ok ()) = Except.error "initialization failure"
    ∧ Except.error "initialization failure" ≠
        (Except.ok Option.none : Except String (Option Unit)) :=
  ⟨rfl, by simp⟩

/-- C1 amended: when the engine is already initialized, or the initialization
step completes without raising, explain() never propagates an exception: it
always returns an ok outcome, and any exception raised during matching or
rendering is caught and converted to the no-explanation result None. -/
theorem c1_explain_catches_after_init {ε α β : Type} (initialized : Bool)
    (initializeOp : Except ε Unit) (findOp : Except ε (Option α))
    (renderOp : α → Except ε β)
    (hinit : initialized = true ∨ initializeOp = Except.ok ()) :
    (∃ v, ExplanationEngine.explain initialized initializeOp findOp renderOp =
      Except.ok v)
    ∧ (∀ err, findOp = Except.error err →
        ExplanationEngine.explain initialized initializeOp findOp renderOp =
          Except.ok Option.none)
    ∧ (∀ x err, findOp = Except.ok (some x) → renderOp x = Except.error err →
        ExplanationEngine.explain initialized initializeOp findOp renderOp =
          Except.ok Option.none)
    ∧ (findOp = Except.ok Option.none →
        ExplanationEngine.explain initialized initializeOp findOp renderOp =
          Except.ok Option.none) := by
  have hstep : (if initialized then Except.ok () else initializeOp) =
      (Except.ok () : Except ε Unit) := by
    rcases hinit with h | h
    · simp [h]
    · cases initialized <;> simp [h]
  unfold ExplanationEngine.explain
  rw [hstep]
  refine ⟨?_, ?_, ?_, ?_⟩
  · cases hf : findOp with
    | error e => exact ⟨Option.none, by simp [hf, Except.bind]⟩
    | ok v =>
      cases v with
      | none => exact ⟨Option.none, by simp [hf, Except.bind]⟩
      | some x =>
        cases hr : renderOp x with
        | error e => exact ⟨Option.none, by simp [hf, hr, Except.bind, Except.map]⟩
        | ok b => exact ⟨some b, by simp [hf, hr, Except.bind, Except.map]⟩
  · intro err hf
    simp [hf, Except.bind]
  · intro x err hf hr
    simp [hf, hr, Except.bind, Except.map]
  · intro hf
    simp [hf, Except.bind]

/-- Witness for C1's amended theorem: with initialization succeeding and the
matcher call raising, explain() returns the no-explanation result. -/
theorem c1_explain_catches_after_init_w :
    ExplanationEngine.explain (ε := String) (α := Unit) (β := Unit) false
        (Except.ok ()) (Except.error "malformed regex") (fun _ => Except.ok ()) =
      Except.ok Option.none :=
  (c1_explain_catches_after_init false (Except.ok ())
      (Except.error "malformed regex") (fun _ => Except.ok ())
      (Or.inr rfl)).2.1 "malformed regex" rfl

/-! ## Claim C10 -/

/-- The import-pattern pass leaves the similarity fields unchanged. -/
theorem analyzeImportPatterns_preserves_sim (a : Analysis) :
    (ContextAnalyzer.analyzeImportPatterns a).similar_variables = a.similar_variables
    ∧ (ContextAnalyzer.analyzeImportPatterns a).closest_variable = a.closest_variable
    ∧ (ContextAnalyzer.analyzeImportPatterns a).similarity_score = a.similarity_score
    ∧ (ContextAnalyzer.analyzeImportPatterns a).similar_variables_exist =
        a.similar_variables_exist := by
  unfold ContextAnalyzer.analyzeImportPatterns
  split <;> simp

/-- The builtin-typo pass leaves the similarity fields unchanged. -/
theorem analyzeBuiltinTypos_preserves_sim (a : Analysis) :
    (ContextAnalyzer.analyzeBuiltinTypos a).similar_variables = a.similar_variables
    ∧ (ContextAnalyzer.analyzeBuiltinTypos a).closest_variable = a.closest_variable
    ∧ (ContextAnalyzer.analyzeBuiltinTypos a).similarity_score = a.similarity_score
    ∧ (ContextAnalyzer.analyzeBuiltinTypos a).similar_variables_exist =
        a.similar_variables_exist := by
  unfold ContextAnalyzer.analyzeBuiltinTypos
  split <;> simp

/-- The TypeError pass leaves the similarity fields unchanged. -/
theorem analyzeTypeErrors_preserves_sim (em : ExtractionModel) (b : Bool)
    (msg : String) (a : Analysis) :
    (ContextAnalyzer.analyzeTypeErrors em b msg a).similar_variables = a.similar_variables
    ∧ (ContextAnalyzer.analyzeTypeErrors em b msg a).closest_variable = a.closest_variable
    ∧ (ContextAnalyzer.analyzeTypeErrors em b msg a).similarity_score = a.similarity_score
    ∧ (ContextAnalyzer.analyzeTypeErrors em b msg a).similar_variables_exist =
        a.similar_variables_exist := by
  unfold ContextAnalyzer.analyzeTypeErrors
  split
  · simp
  · split <;> simp

/-- The ValueError pass leaves the similarity fields unchanged. -/
theorem analyzeValueErrors_preserves_sim (em : ExtractionModel) (b : Bool)
    (msg : String) (a : Analysis) :
    (ContextAnalyzer.analyzeValueErrors em b msg a).similar_variables = a.similar_variables
    ∧ (ContextAnalyzer.analyzeValueErrors em b msg a).closest_variable = a.closest_variable
    ∧ (ContextAnalyzer.analyzeValueErrors em b msg a).similarity_score = a.similarity_score
    ∧ (ContextAnalyzer.analyzeValueErrors em b msg a).similar_variables_exist =
        a.similar_variables_exist := by
  unfold ContextAnalyzer.analyzeValueErrors
  split
  · simp
  · split <;> split <;> simp

/-- The similarity pass establishes the similarity invariant, starting from the
dictionary defaults. -/
theorem analyzeVariableSimilarity_invariant (dm : DifflibModel) (a : Analysis)
    (h1 : a.similar_variables = []) (h2 : a.closest_variable = Option.none)
    (h3 : a.similarity_score = 0) (h4 : a.similar_variables_exist = false) :
    ((ContextAnalyzer.analyzeVariableSimilarity dm a).similar_variables_exist = true ↔
      (ContextAnalyzer.analyzeVariableSimilarity dm a).similar_variables ≠ [])
    ∧ (ContextAnalyzer.analyzeVariableSimilarity dm a).closest_variable =
        (ContextAnalyzer.analyzeVariableSimilarity dm a).similar_variables.head?
    ∧ ((ContextAnalyzer.analyzeVariableSimilarity dm a).similar_variables = [] →
        (ContextAnalyzer.analyzeVariableSimilarity dm a).similarity_score = 0) := by
  unfold ContextAnalyzer.analyzeVariableSimilarity
  split
  · simp [h1, h2, h3, h4]
  · cases hsim : dm.getCloseMatches a.variable_name a.available_variables with
    | nil => simp [hsim, h2, h3, h4]
    | cons c rest => simp [hsim]

/-- C10: every fact dictionary produced by analyze satisfies the similarity
invariant: the existence flag holds exactly when the similar-variable list is
non-empty, the closest variable is its first element (None when empty), and
the similarity score is 0 whenever the list is empty.  The statement is
universal in the stdlib models (difflib, regex extraction), the exception data
and the captured context. -/
theorem c10_analyze_similarity_invariant (em : ExtractionModel) (dm : DifflibModel)
    (ty msg : String) (isTE isVE : Bool) (ctx : CapturedContext) :
    ((ContextAnalyzer.analyze em dm ty msg isTE isVE ctx).similar_variables_exist = true ↔
      (ContextAnalyzer.analyze em dm ty msg isTE isVE ctx).similar_variables ≠ [])
    ∧ (ContextAnalyzer.analyze em dm ty msg isTE isVE ctx).closest_variable =
        (ContextAnalyzer.analyze em dm ty msg isTE isVE ctx).similar_variables.head?
    ∧ ((ContextAnalyzer.analyze em dm ty msg isTE isVE ctx).similar_variables = [] →
        (ContextAnalyzer.analyze em dm ty msg isTE isVE ctx).similarity_score = 0) := by
  have hinv := analyzeVariableSimilarity_invariant dm
    (ContextAnalyzer.initAnalysis em ty msg ctx) rfl rfl rfl rfl
  unfold ContextAnalyzer.analyze
  generalize hgen : ContextAnalyzer.analyzeVariableSimilarity dm
    (ContextAnalyzer.initAnalysis em ty msg ctx) = s at hinv ⊢
  obtain ⟨i1, i2, i3, i4⟩ := analyzeImportPatterns_preserves_sim s
  obtain ⟨b1, b2, b3, b4⟩ :=
    analyzeBuiltinTypos_preserves_sim (ContextAnalyzer.analyzeImportPatterns s)
  obtain ⟨t1, t2, t3, t4⟩ := analyzeTypeErrors_preserves_sim em isTE msg
    (ContextAnalyzer.analyzeBuiltinTypos (ContextAnalyzer.analyzeImportPatterns s))
  obtain ⟨v1, v2, v3, v4⟩ := analyzeValueErrors_preserves_sim em isVE msg
    (ContextAnalyzer.analyzeTypeErrors em isTE msg
      (ContextAnalyzer.analyzeBuiltinTypos (ContextAnalyzer.analyzeImportPatterns s)))
  rw [v1, v2, v3, v4, t1, t2, t3, t4, b1, b2, b3, b4, i1, i2, i3, i4]
  exact hinv

/-! ## Claim C4 -/

/-- C4 counterexample: a variable_similarity predicate with stated threshold
0.0 is NOT satisfied by a fact set with similarity score 1/2 and one similar
variable, although 1/2 is at least the stated threshold and 1 similar variable
meets the stated min_matches — the Python idiom `condition.threshold or 0.6`
replaces a stated 0.0 (falsy) by the default 0.6. -/
theorem c4_counterexample :
    ContextAnalyzer.checkCondition
        { type := "variable_similarity", threshold := some 0, min_matches := some 1 }
        { sampleAnalysis with
            similarity_score := 1 / 2, similar_variables := ["values"] } = false
    ∧ ((0 : Rat) ≤ 1 / 2
        ∧ (1 : Int) ≤ ((["values"] : List String).length : Int)) := by
  constructor
  · norm_num [ContextAnalyzer.checkCondition, ContextAnalyzer.orDefaultRat,
      ContextAnalyzer.orDefaultInt]
  · norm_num

/-- C4 amended: a variable_similarity predicate is satisfied exactly when the
similarity score is at least the effective threshold and the number of similar
variables is at least the effective min_matches, where the effective threshold
is 0.6 when the stated one is absent OR zero (Python falsiness) and the stated
one otherwise, and likewise the effective min_matches defaults to 1 when
absent or zero. -/
theorem c4_variable_similarity_predicate (t : Option Rat) (mm : Option Int)
    (a : Analysis) :
    (ContextAnalyzer.checkCondition
        { type := "variable_similarity", threshold := t, min_matches := mm } a = true ↔
      (ContextAnalyzer.orDefaultRat t (6 / 10) ≤ a.similarity_score
        ∧ ContextAnalyzer.orDefaultInt mm 1 ≤ (a.similar_variables.length : Int)))
    ∧ ContextAnalyzer.orDefaultRat Option.none (6 / 10) = 6 / 10
    ∧ ContextAnalyzer.orDefaultRat (some 0) (6 / 10) = 6 / 10
    ∧ (∀ q : Rat, q ≠ 0 → ContextAnalyzer.orDefaultRat (some q) (6 / 10) = q)
    ∧ ContextAnalyzer.orDefaultInt Option.none 1 = 1
    ∧ ContextAnalyzer.orDefaultInt (some 0) 1 = 1
    ∧ (∀ n : Int, n ≠ 0 → ContextAnalyzer.orDefaultInt (some n) 1 = n) := by
  refine ⟨?_, rfl, by simp [ContextAnalyzer.orDefaultRat],
    fun q hq => by simp [ContextAnalyzer.orDefaultRat, hq],
    rfl, by simp [ContextAnalyzer.orDefaultInt],
    fun n hn => by simp [ContextAnalyzer.orDefaultInt, hn]⟩
  simp [ContextAnalyzer.checkCondition]

/-- Witness for C4's amended theorem: a stated threshold 0.4 (non-zero, so
kept) with one similar variable at score 1/2 satisfies the predicate. -/
theorem c4_variable_similarity_predicate_w :
    ContextAnalyzer.checkCondition
        { type := "variable_similarity", threshold := some (4 / 10),
          min_matches := Option.none }
        { sampleAnalysis with
            similarity_score := 1 / 2, similar_variables := ["values"] } = true :=
  ((c4_variable_similarity_predicate (some (4 / 10)) Option.none
      { sampleAnalysis with
          similarity_score := 1 / 2, similar_variables := ["values"] }).1).2
    (by norm_num [ContextAnalyzer.orDefaultRat, ContextAnalyzer.orDefaultInt,
      sampleAnalysis])

/-! ## Claim C2 -/

/-- C2 counterexample: the literal token "always" is special-cased only in the
per-item inclusion check; inside an \x7bif ...\x7d block the same token goes
through the general expression evaluator, where it is false on a fact set with
no fact named "always" — so the block's content is dropped. -/
theorem c2_counterexample :
    TemplateRenderer.shouldIncludeItem "always" [] = true
    ∧ TemplateRenderer.evaluateCondition "always" [] = false
    ∧ TemplateRenderer.handleConditionalBlocks "\x7bif always\x7dYES\x7bendif\x7d" [] = "" := by
  refine ⟨rfl, rfl, ?_⟩
  decide

/-- C2 amended: "always" is unconditionally true as a per-item inclusion
condition, but inside \x7bif\x7d blocks it is evaluated like any other
expression (false unless the fact set has a truthy fact named "always"); a
bare fact name is truthy per its value's type (bool as-is, non-empty string or
collection, numeric > 0); a "<fact> > <number>" form compares the fact
numerically against the parsed right side (false when the fact cannot be
converted to a number); any other expression evaluates to false. -/
theorem c2_condition_language (fs : FactSet) (name : String) :
    TemplateRenderer.shouldIncludeItem "always" fs = true
    ∧ (fs.get? "always" = Option.none →
        TemplateRenderer.evaluateCondition "always" fs = false)
    ∧ (∀ b, fs.get? name = some (PyValue.bool b) →
        TemplateRenderer.evaluateCondition name fs = b)
    ∧ (∀ s, fs.get? name = some (PyValue.str s) →
        TemplateRenderer.evaluateCondition name fs = decide (0 < s.length))
    ∧ (∀ xs, fs.get? name = some (PyValue.list xs) →
        TemplateRenderer.evaluateCondition name fs = decide (0 < xs.length))
    ∧ (∀ n : Int, fs.get? name = some (PyValue.int n) →
        TemplateRenderer.evaluateCondition name fs = decide (0 < n))
    ∧ (∀ q : Rat, fs.get? name = some (PyValue.float q) →
        TemplateRenderer.evaluateCondition name fs = decide (0 < q))
    ∧ (∀ cond left right rv,
        TemplateRenderer.directTruthiness (fs.get? cond) = Option.none →
        splitFirstStr " > " cond = some (left, right) →
        parseFloat (pyStripStr right) = some rv →
        TemplateRenderer.evaluateCondition cond fs =
          (match pyFloat ((fs.get? (pyStripStr left)).getD (PyValue.int 0)) with
           | some lv => decide (rv < lv)
           | Option.none => false))
    ∧ (∀ cond left right,
        TemplateRenderer.directTruthiness (fs.get? cond) = Option.none →
        splitFirstStr " > " cond = some (left, right) →
        parseFloat (pyStripStr right) = Option.none →
        TemplateRenderer.evaluateCondition cond fs = false)
    ∧ (∀ cond, TemplateRenderer.directTruthiness (fs.get? cond) = Option.none →
        splitFirstStr " > " cond = Option.none →
        TemplateRenderer.evaluateCondition cond fs = false) := by
  have hsplit : splitFirstStr " > " "always" = Option.none := rfl
  refine ⟨rfl, ?_, ?_, ?_, ?_, ?_, ?_, ?_, ?_, ?_⟩
  · intro h
    simp [TemplateRenderer.evaluateCondition, TemplateRenderer.directTruthiness, h,
      TemplateRenderer.evaluateComparison, hsplit]
  · intro b h
    simp [TemplateRenderer.evaluateCondition, TemplateRenderer.directTruthiness, h]
  · intro s h
    simp [TemplateRenderer.evaluateCondition, TemplateRenderer.directTruthiness, h]
  · intro xs h
    simp [TemplateRenderer.evaluateCondition, TemplateRenderer.directTruthiness, h]
  · intro n h
    simp [TemplateRenderer.evaluateCondition, TemplateRenderer.directTruthiness, h]
  · intro q h
    simp [TemplateRenderer.evaluateCondition, TemplateRenderer.directTruthiness, h]
  · intro cond left right rv hdt hsp hpf
    simp only [TemplateRenderer.evaluateCondition, hdt,
      TemplateRenderer.evaluateComparison, hsp, hpf]
    cases hlv : pyFloat ((fs.get? (pyStripStr left)).getD (PyValue.int 0)) <;> simp [hlv]
  · intro cond left right hdt hsp hpf
    simp [TemplateRenderer.evaluateCondition, hdt,
      TemplateRenderer.evaluateComparison, hsp, hpf]
  · intro cond hdt hsp
    simp [TemplateRenderer.evaluateCondition, hdt,
      TemplateRenderer.evaluateComparison, hsp]

/-- Witness for C2's amended theorem: the per-item "always" is true on the
empty fact set, the same token inside the expression evaluator is false there,
and a bare fact name bound to a non-empty list is truthy. -/
theorem c2_condition_language_w :
    TemplateRenderer.shouldIncludeItem "always" [] = true
    ∧ TemplateRenderer.evaluateCondition "always" [] = false
    ∧ TemplateRenderer.evaluateCondition "similar_variables"
        [("similar_variables", PyValue.list [PyValue.str "lst"])] = true := by
  refine ⟨(c2_condition_language [] "x").1, (c2_condition_language [] "x").2.1 rfl, ?_⟩
  have h := (c2_condition_language
      [("similar_variables", PyValue.list [PyValue.str "lst"])]
      "similar_variables").2.2.2.2.1 [PyValue.str "lst"] rfl
  simpa using h

/-! ## Claim C5 -/

/-- C5 counterexample: a suggestion whose condition is satisfied but whose
rendered text is empty is dropped from the rendered suggestion list — the list
does not contain every condition-passing suggestion. -/
theorem c5_counterexample :
    TemplateRenderer.renderSuggestions
        [{ template := "", priority := 1, condition := "always" }] [] = []
    ∧ TemplateRenderer.shouldIncludeItem "always" [] = true
    ∧ TemplateRenderer.renderTemplate "" [] = "" :=
  ⟨rfl, rfl, rfl⟩

/-- C5 amended: within one matched rule, the rendered suggestion list contains
exactly the suggestions whose inclusion condition is satisfied AND whose
rendered text is non-empty, each rendered against the fact set (stated as a
permutation, so with multiplicity); the underlying pair list is ordered
ascending by the suggestion's own priority (stable sort) and the output is its
texts with empty ones removed; the ordering does not depend on the rule's own
priority — two rules with the same content render the same suggestions. -/
theorem c5_suggestion_list (suggs : List ExplanationSuggestion) (fs : FactSet)
    (e1 e2 : Explanation) :
    (TemplateRenderer.renderSuggestions suggs fs).Perm
        ((suggs.filter (fun s => TemplateRenderer.shouldIncludeItem s.condition fs
            && decide (TemplateRenderer.renderTemplate s.template fs ≠ ""))).map
          (fun s => TemplateRenderer.renderTemplate s.template fs))
    ∧ (TemplateRenderer.suggestionsWithPriority suggs fs).Pairwise
        (fun x y => x.1.priority ≤ y.1.priority)
    ∧ TemplateRenderer.renderSuggestions suggs fs =
        ((TemplateRenderer.suggestionsWithPriority suggs fs).map Prod.snd).filter
          (fun t => t ≠ "")
    ∧ (e1.explanation = e2.explanation →
        (TemplateRenderer.renderExplanation e1 fs).suggestions =
          (TemplateRenderer.renderExplanation e2 fs).suggestions) := by
  refine ⟨?_, ?_, rfl, ?_⟩
  · have hperm : (TemplateRenderer.renderSuggestions suggs fs).Perm
        ((((suggs.filter
              (fun s => TemplateRenderer.shouldIncludeItem s.condition fs)).map
            (fun s => (s, TemplateRenderer.renderTemplate s.template fs))).map
          Prod.snd).filter (fun t => t ≠ "")) :=
      ((List.perm_insertionSort TemplateRenderer.sugPriorityLE _).map Prod.snd).filter _
    refine hperm.trans (List.Perm.of_eq ?_)
    rw [List.map_map, List.filter_map]
    rw [List.filter_filter]
    congr 1
    apply List.filter_congr
    intro s _
    rw [Bool.and_comm]
    rfl
  · exact (List.sorted_insertionSort TemplateRenderer.sugPriorityLE _ :
      List.Sorted TemplateRenderer.sugPriorityLE _)
  · intro h
    simp [TemplateRenderer.renderExplanation, h]

/-- Witness for C5's amended theorem: suggestion rendering is unchanged when
only the rule's own priority differs. -/
theorem c5_suggestion_list_w :
    (TemplateRenderer.renderExplanation { sampleRule with priority := 10 } []).suggestions =
      (TemplateRenderer.renderExplanation { sampleRule with priority := 5 } []).suggestions :=
  (c5_suggestion_list [] [] { sampleRule with priority := 10 }
    { sampleRule with priority := 5 }).2.2.2 rfl

/-! ## Claim C6 -/

/-- Rebuilding a string from its character data is the identity. -/
theorem String_mk_data (s : String) : String.mk s.data = s := rfl

/-- The brace-bounded capture of the variable-token regex: `takeWhile` up to
the first closing brace consumes exactly the name when the name has none. -/
theorem takeWhile_append_rbrace (a b : List Char) (h : rbrace ∉ a) :
    (a ++ rbrace :: b).takeWhile (fun x => x ≠ rbrace) = a := by
  induction a with
  | nil => simp
  | cons c t ih =>
    simp only [List.mem_cons, not_or] at h
    have hc : c ≠ rbrace := fun hh => h.1 hh.symm
    simp [List.takeWhile_cons, hc]
    simpa using ih h.2

/-- `splitFirst` over a single-character pattern finds nothing when the
character is absent. -/
theorem splitFirst_single_not_mem (c : Char) :
    ∀ l : List Char, c ∉ l → splitFirst [c] l = Option.none
  | [], _ => rfl
  | d :: t, h => by
    simp only [List.mem_cons, not_or] at h
    rw [splitFirst]
    have hpre : ¬ (([c] : List Char).isPrefixOf (d :: t) = true) := by
      simp only [List.isPrefixOf, Bool.and_eq_true, beq_iff_eq]
      exact fun hcd => h.1 hcd.1
    rw [if_neg hpre, splitFirst_single_not_mem c t h.2]

/-- `splitFirst` over a single-character pattern splits at its first
occurrence. -/
theorem splitFirst_single_append (c : Char) :
    ∀ a b : List Char, c ∉ a → splitFirst [c] (a ++ c :: b) = some (a, b)
  | [], b, _ => by
    rw [List.nil_append, splitFirst]
    have hpre : (([c] : List Char).isPrefixOf (c :: b)) = true := by
      simp [List.isPrefixOf]
    rw [if_pos hpre]
    simp
  | d :: t, b, h => by
    simp only [List.mem_cons, not_or] at h
    rw [List.cons_append, splitFirst]
    have hpre : ¬ (([c] : List Char).isPrefixOf (d :: (t ++ c :: b)) = true) := by
      simp only [List.isPrefixOf, Bool.and_eq_true, beq_iff_eq]
      exact fun hcd => h.1 hcd.1
    rw [if_neg hpre, splitFirst_single_append c t b h.2]

/-- The variable-token regex matches a whole braced token when the name is
non-empty and free of closing braces. -/
theorem scanToken_braced (a b : List Char) (h : rbrace ∉ a) (hne : a ≠ []) :
    TemplateRenderer.scanToken (lbrace :: (a ++ rbrace :: b)) = some (a, b) := by
  rw [TemplateRenderer.scanToken]
  simp only [if_pos rfl, takeWhile_append_rbrace a b h, List.drop_left]
  have hemp : a.isEmpty = false := by
    cases a
    · exact absurd rfl hne
    · rfl
  simp [hemp]

/-- Dropping leading whitespace cannot cross a final non-whitespace
character. -/
theorem dropWhile_append_singleton (c : Char) (hc : c.isWhitespace = false) :
    ∀ xs : List Char, ∃ zs, (xs ++ [c]).dropWhile Char.isWhitespace = zs ++ [c]
  | [] => ⟨[], by simp [List.dropWhile_cons, hc]⟩
  | x :: t => by
    by_cases hx : x.isWhitespace
    · obtain ⟨zs, hzs⟩ := dropWhile_append_singleton c hc t
      exact ⟨zs, by simp [List.dropWhile_cons, hx, hzs]⟩
    · exact ⟨x :: t, by simp [List.dropWhile_cons, hx]⟩

/-- Stripping preserves a non-whitespace head character. -/
theorem pyStrip_cons_head (c : Char) (m : List Char) (hc : c.isWhitespace = false) :
    ∃ m', pyStrip (c :: m) = c :: m' := by
  obtain ⟨zs, hzs⟩ := dropWhile_append_singleton c hc m.reverse
  refine ⟨zs.reverse, ?_⟩
  unfold pyStrip
  simp only [List.dropWhile_cons, hc, Bool.false_eq_true, if_false]
  rw [show (c :: m).reverse = m.reverse ++ [c] by simp, hzs]
  simp

/-- A string starting with an opening brace is not a float literal: Python
`float()` raises on it (the placeholder strings fed back through format specs
always take this branch). -/
theorem parseFloat_head_lbrace (m : List Char) :
    parseFloat (String.mk (lbrace :: m)) = Option.none := by
  obtain ⟨m', hm'⟩ := pyStrip_cons_head lbrace m (by decide)
  unfold parseFloat
  rw [show (String.mk (lbrace :: m)).data = lbrace :: m from rfl, hm']
  simp only [List.head?_cons]
  rw [if_neg (by decide : ¬ (some lbrace = some '-' ∨ some lbrace = some '+'))]
  rw [show (lbrace :: m').takeWhile Char.isDigit = [] by
    simp [List.takeWhile_cons, show lbrace.isDigit = false by decide]]
  simp only [List.length_nil, List.drop_zero]
  split
  · simp_all
  · rename_i frac heq
    injection heq with h1 h2
    exact absurd h1 (by decide)
  · rfl

end Qinter

namespace Qinter

/-- The placeholder string for a missing fact. -/
theorem placeholder_data (name : String) :
    ("\x7bunknown_variable_" ++ name ++ "\x7d").data =
      lbrace :: (("unknown_variable_".data ++ name.data) ++ [rbrace]) := by
  show ("\x7bunknown_variable_".data ++ name.data ++ "\x7d".data) = _
  rw [show ("\x7bunknown_variable_" : String).data =
    lbrace :: ("unknown_variable_" : String).data from rfl,
    show ("\x7d" : String).data = [rbrace] from rfl]
  simp

/-- Python `float()` of a missing-fact placeholder raises, so the format
branches fall back to `str(value)`. -/
theorem pyFloat_placeholder (name : String) :
    pyFloat (PyValue.str ("\x7bunknown_variable_" ++ name ++ "\x7d")) =
      Option.none := by
  show parseFloat ("\x7bunknown_variable_" ++ name ++ "\x7d") = Option.none
  have h := parseFloat_head_lbrace (("unknown_variable_".data ++ name.data) ++ [rbrace])
  rw [show String.mk (lbrace :: (("unknown_variable_".data ++ name.data) ++ [rbrace])) =
    "\x7bunknown_variable_" ++ name ++ "\x7d" by
      rw [show ("\x7bunknown_variable_" ++ name ++ "\x7d" : String) =
        String.mk ("\x7bunknown_variable_" ++ name ++ "\x7d").data from rfl,
        placeholder_data]] at h
  exact h

/-- One step of the substitution scan across a whole braced token. -/
theorem substAux_token (fs : FactSet) (a b : List Char) (h : rbrace ∉ a)
    (hne : a ≠ []) (fuel : Nat) :
    TemplateRenderer.substituteVariablesAux fs (fuel + 1) (lbrace :: (a ++ rbrace :: b)) =
      (TemplateRenderer.replaceVar fs a).data ++
        TemplateRenderer.substituteVariablesAux fs fuel b := by
  rw [TemplateRenderer.substituteVariablesAux, scanToken_braced a b h hne]

/-- The substitution scan of an exhausted template. -/
theorem substAux_nil (fs : FactSet) (fuel : Nat) :
    TemplateRenderer.substituteVariablesAux fs (fuel + 1) [] = [] := rfl

/-- C6: variable substitution never throws on a missing fact (the embedding is
a total function): a braced token whose name is absent from the fact set is
replaced by the literal placeholder, both in the plain form and in the
name-colon-format form (where the format spec is applied to the placeholder
string, whose float conversion fails, falling back to the string itself); in
particular rendering "\x7bnonexistent\x7d" against an empty fact set yields
exactly "\x7bunknown_variable_nonexistent\x7d". -/
theorem c6_missing_fact_placeholder (fs : FactSet) (name base fmt : String)
    (hname_ne : name.data ≠ []) (hname_rb : rbrace ∉ name.data)
    (hname_colon : ':' ∉ name.data) (hmiss : fs.get? name = Option.none)
    (hbase_rb : rbrace ∉ base.data) (hfmt_rb : rbrace ∉ fmt.data)
    (hbase_colon : ':' ∉ base.data) (hbmiss : fs.get? base = Option.none) :
    TemplateRenderer.substituteVariables ("\x7b" ++ name ++ "\x7d") fs =
        "\x7bunknown_variable_" ++ name ++ "\x7d"
    ∧ TemplateRenderer.substituteVariables ("\x7b" ++ base ++ ":" ++ fmt ++ "\x7d") fs =
        "\x7bunknown_variable_" ++ base ++ "\x7d"
    ∧ TemplateRenderer.renderTemplate "\x7bnonexistent\x7d" [] =
        "\x7bunknown_variable_nonexistent\x7d" := by
  refine ⟨?_, ?_, by decide⟩
  · have hdata : ("\x7b" ++ name ++ "\x7d").data =
        lbrace :: (name.data ++ rbrace :: []) := by
      show ("\x7b".data ++ name.data ++ "\x7d".data) = _
      rw [show ("\x7b" : String).data = [lbrace] from rfl,
        show ("\x7d" : String).data = [rbrace] from rfl]
      simp
    unfold TemplateRenderer.substituteVariables
    rw [hdata,
      show (lbrace :: (name.data ++ rbrace :: [])).length = name.data.length + 1 + 1
        by simp,
      substAux_token fs name.data [] hname_rb hname_ne, substAux_nil,
      List.append_nil, TemplateRenderer.replaceVar,
      splitFirst_single_not_mem ':' name.data hname_colon]
    simp only [String_mk_data, hmiss, Option.getD_none, pyStr]
  · have hrb : rbrace ∉ base.data ++ ':' :: fmt.data := by
      simp only [List.mem_append, List.mem_cons, not_or]
      exact ⟨hbase_rb, by decide, hfmt_rb⟩
    have hne2 : base.data ++ ':' :: fmt.data ≠ [] := by simp
    have hdata : ("\x7b" ++ base ++ ":" ++ fmt ++ "\x7d").data =
        lbrace :: ((base.data ++ ':' :: fmt.data) ++ rbrace :: []) := by
      show ("\x7b".data ++ base.data ++ ":".data ++ fmt.data ++ "\x7d".data) = _
      rw [show ("\x7b" : String).data = [lbrace] from rfl,
        show ("\x7d" : String).data = [rbrace] from rfl,
        show (":" : String).data = [':'] from rfl]
      simp
    unfold TemplateRenderer.substituteVariables
    rw [hdata,
      show (lbrace :: ((base.data ++ ':' :: fmt.data) ++ rbrace :: [])).length =
          (base.data ++ ':' :: fmt.data).length + 1 + 1 by simp; try omega,
      substAux_token fs _ [] hrb hne2, substAux_nil, List.append_nil,
      TemplateRenderer.replaceVar,
      splitFirst_single_append ':' base.data fmt.data hbase_colon]
    simp only [String_mk_data, hbmiss, Option.getD_none]
    by_cases hf1 : fmt = ".0%"
    · rw [if_pos hf1, pyFloat_placeholder base]
      simp only [pyStr, String_mk_data]
    · rw [if_neg hf1]
      by_cases hf2 : (fmt.startsWith "." && fmt.endsWith "f") = true
      · rw [if_pos hf2, pyFloat_placeholder base]
        cases hpi : parsePyInt (String.mk ((fmt.data.drop 1).dropLast)) <;>
          simp only [hpi, pyStr, String_mk_data]
      · rw [if_neg hf2]
        simp only [pyStr, String_mk_data]

/-- Witness for C6: rendering the token "\x7bnonexistent\x7d" (and a
formatted token with a missing name) against the empty fact set yields the
literal placeholders. -/
theorem c6_missing_fact_placeholder_w :
    TemplateRenderer.substituteVariables "\x7bnonexistent\x7d" [] =
        "\x7bunknown_variable_nonexistent\x7d"
    ∧ TemplateRenderer.substituteVariables "\x7bsimilarity_score:.0%\x7d" [] =
        "\x7bunknown_variable_similarity_score\x7d" := by
  have h := c6_missing_fact_placeholder [] "nonexistent" "similarity_score" ".0%"
    (by decide) (by decide) (by decide) rfl (by decide) (by decide) (by decide) rfl
  exact ⟨h.1, h.2.1⟩

end Qinter

namespace Qinter

/-! ## Claim C9 -/

/-- The similarity pass leaves `available_variables` unchanged. -/
theorem analyzeVariableSimilarity_preserves_avail (dm : DifflibModel) (a : Analysis) :
    (ContextAnalyzer.analyzeVariableSimilarity dm a).available_variables =
      a.available_variables := by
  unfold ContextAnalyzer.analyzeVariableSimilarity
  split
  · rfl
  · cases dm.getCloseMatches a.variable_name a.available_variables <;> simp

/-- The four passes after the similarity analysis leave `available_variables`
unchanged. -/
theorem later_passes_preserve_avail (em : ExtractionModel) (isTE isVE : Bool)
    (msg : String) (a : Analysis) :
    (ContextAnalyzer.analyzeValueErrors em isVE msg
        (ContextAnalyzer.analyzeTypeErrors em isTE msg
          (ContextAnalyzer.analyzeBuiltinTypos
            (ContextAnalyzer.analyzeImportPatterns a)))).available_variables =
      a.available_variables := by
  have h1 : (ContextAnalyzer.analyzeImportPatterns a).available_variables =
      a.available_variables := by
    unfold ContextAnalyzer.analyzeImportPatterns; split <;> simp
  have h2 : ∀ b : Analysis, (ContextAnalyzer.analyzeBuiltinTypos b).available_variables =
      b.available_variables := by
    intro b; unfold ContextAnalyzer.analyzeBuiltinTypos; split <;> simp
  have h3 : ∀ b : Analysis,
      (ContextAnalyzer.analyzeTypeErrors em isTE msg b).available_variables =
        b.available_variables := by
    intro b; unfold ContextAnalyzer.analyzeTypeErrors
    split
    · simp
    · split <;> simp
  have h4 : ∀ b : Analysis,
      (ContextAnalyzer.analyzeValueErrors em isVE msg b).available_variables =
        b.available_variables := by
    intro b; unfold ContextAnalyzer.analyzeValueErrors
    split
    · simp
    · split <;> split <;> simp
  rw [h4, h3, h2, h1]

/-- C9: for every captured context, the analysis dictionary's
available_variables is exactly the local variable names with underscore-prefixed
and shorter-than-2-character names excluded, de-duplicated (assuming the
dict-unique keys of the locals snapshot), and sorted ascending in the string
order: it is a permutation of the filtered name list, pairwise sorted, with the
expected membership, preserving duplicate-freeness, and equal to what analyze
stores in the fact dictionary. -/
theorem c9_available_variables (em : ExtractionModel) (dm : DifflibModel)
    (ty msg : String) (isTE isVE : Bool) (ctx : CapturedContext) :
    (ContextAnalyzer.analyze em dm ty msg isTE isVE ctx).available_variables =
        ContextAnalyzer.getAvailableVariables ctx.local_variables
    ∧ (ContextAnalyzer.getAvailableVariables ctx.local_variables).Perm
        ((ctx.local_variables.map Prod.fst).filter
          (fun name => !(name.startsWith "_") && decide (1 < name.length)))
    ∧ (ContextAnalyzer.getAvailableVariables ctx.local_variables).Pairwise
        (fun a b => a ≤ b)
    ∧ (∀ x, x ∈ ContextAnalyzer.getAvailableVariables ctx.local_variables ↔
        (x ∈ ctx.local_variables.map Prod.fst ∧ x.startsWith "_" = false
          ∧ 1 < x.length))
    ∧ ((ctx.local_variables.map Prod.fst).Nodup →
        (ContextAnalyzer.getAvailableVariables ctx.local_variables).Nodup) := by
  have hperm : (ContextAnalyzer.getAvailableVariables ctx.local_variables).Perm
      ((ctx.local_variables.map Prod.fst).filter
        (fun name => !(name.startsWith "_") && decide (1 < name.length))) :=
    List.perm_insertionSort _ _
  refine ⟨?_, hperm, ?_, ?_, ?_⟩
  · unfold ContextAnalyzer.analyze
    rw [later_passes_preserve_avail, analyzeVariableSimilarity_preserves_avail]
    rfl
  · exact (List.sorted_insertionSort (fun a b => a ≤ b) _ :
      List.Sorted (fun a b : String => a ≤ b) _)
  · intro x
    rw [hperm.mem_iff, List.mem_filter]
    simp [Bool.and_eq_true, Bool.not_eq_true']
  · intro hnd
    exact (hperm.symm.nodup (hnd.filter _))

/-- Witness for C9: on a concrete locals snapshot with distinct keys, the
available-variable list is duplicate-free (and evaluates to the sorted, filtered
name list). -/
theorem c9_available_variables_w :
    (ContextAnalyzer.getAvailableVariables
        [("lst", PyValue.int 1), ("_tmp", PyValue.int 2), ("x", PyValue.int 3),
         ("items", PyValue.none)]).Nodup :=
  ((c9_available_variables
      { extract_variable_name := fun _ => "unknown"
        extract_object_type := fun _ => "unknown"
        extract_operation := fun _ => "operation"
        extract_bad_value := fun _ => "value"
        type_error_operands := fun _ => Option.none
        unpack_expected_actual := fun _ => Option.none
        unpack_expected := fun _ => Option.none }
      { getCloseMatches := fun _ _ => [], ratioValue := fun _ _ => 0 }
      "NameError" "msg" false false
      { traceback_info := [], filename := Option.none, error_line := Option.none
        local_variables :=
          [("lst", PyValue.int 1), ("_tmp", PyValue.int 2), ("x", PyValue.int 3),
           ("items", PyValue.none)] }).2.2.2.2) (by decide)

end Qinter
